import Mathlib

/-!
# Verification of the drumpad audio engine

Shallow embedding of the audio core of the `drumpad-v2` repository:

* `src/services/AudioService.ts` — the sample library loader and playback
  engine (class `AudioService`);
* `src/stores/drumpadStore.ts` (Pinia store) — the recorder/sequencer
  (`playRecording`, `stopPlaying`, `playDrum`, …) and the volume path
  through the config store;
* `src/stores/configStore.ts` — the persisted configuration.

JavaScript numbers holding volumes are modelled as rationals (`ℚ`, exact in
the ranges used here); the progress percentage `Math.round((k/33)·100)` is
modelled by the exactly-equal integer computation `roundPercent` (see
`roundPercent_eq_jsRound`); millisecond clocks and timestamps are `Nat`.
The single-threaded
event loop is modelled explicitly: `setTimeout` registrations become entries
in a pending-timer list, and firing a timer runs its callback atomically, as
the JS event loop does.
-/

namespace Drumpad

/-! ## AudioService: state

Mirrors the private fields of `class AudioService`
(`src/services/AudioService.ts`, lines 1–12).  A decoded `AudioBuffer` is
opaque to every claim, so a populated sample slot is `some ()`.  The
`Map<string, AudioBuffer[]>` becomes a function `String → Option SlotArray`;
a JS array with holes becomes a total function `Nat → Option Unit` (reading
an unset or out-of-range index gives `undefined`, i.e. `none`), which also
models `buffers[variant]` for an arbitrary `variant`. -/

/-- One `AudioBufferSourceNode` tracked in `activeSources`: its identity and
whether it has already finished playing (so that `stop()` would throw an
`InvalidStateError`). -/
structure SourceUnit where
  id : Nat
  finished : Bool
  deriving DecidableEq, Repr

/-- A JS array of decoded buffers with possible holes: index `i` holds
`some ()` when `buffers[i]` was populated, `none` when it is a hole or out
of range (JS `undefined`). -/
def SlotArray : Type := Nat → Option Unit

/-- The `Map<string, AudioBuffer[]>` of the service. -/
def BufferMap : Type := String → Option SlotArray

/-- State of `class AudioService` (fields in source order). -/
structure AudioState where
  audioContext : Bool
  ctxSuspended : Bool
  buffers : BufferMap
  masterVolume : ℚ
  isInitialized : Bool
  isLoading : Bool
  loadingProgress : Nat
  totalSounds : Nat
  loadedSounds : Nat
  activeSources : List SourceUnit
  nextSourceId : Nat
  masterGainNode : Option ℚ

/-- The field initializers of `class AudioService`. -/
def initialAudioState : AudioState where
  audioContext := false
  ctxSuspended := false
  buffers := fun _ => none
  masterVolume := 7/10
  isInitialized := false
  isLoading := false
  loadingProgress := 0
  totalSounds := 0
  loadedSounds := 0
  activeSources := []
  nextSourceId := 0
  masterGainNode := none

/-- The fixed sample catalog (`drumTypes` in `preloadSounds`). -/
def drumTypes : List String :=
  ["HIHAT", "HIHAT_O", "SNARE", "RIMSHOT", "KICK", "TOM1", "TOM2",
   "FLOOR", "CRASH", "SPLASH", "RIDE"]

/-- `Math.round((loaded / total) * 100)` for `total > 0`: JS `Math.round x`
is `⌊x + 1/2⌋` (half rounds toward `+∞`), and for the nonnegative rational
`loaded/total · 100` that floor is the integer division
`(200·loaded + total) / (2·total)` — proved exact in
`roundPercent_eq_jsRound` below.  (On the values `k/33 · 100` produced by
the loader, IEEE-754 double rounding stays at least `1/66 − ε` away from
every half-integer boundary, so the exact rational model matches the JS
floats.) -/
def roundPercent (loaded total : Nat) : Nat :=
  (200 * loaded + total) / (2 * total)

/-! ## AudioService: the sample library loader

`preloadSounds` issues the 33 fetch-and-decode operations concurrently.  The
per-operation continuations (`.then` writes a slot, `.catch` warns; both call
`updateLoadingProgress`) run one at a time on the event loop, in an
unspecified completion order; the model takes that completion order as an
explicit list `order` of `(drumType, i)` pairs and folds the continuation
over it.  The outcome of each fetch-and-decode is the oracle
`ok : String → Nat → Bool` (`ok d i` ↔ loading `/sounds/{d}_{i}.mp3`
succeeded). -/

/-- `AudioService.updateLoadingProgress` (lines 89–93): increments
`loadedSounds`, recomputes `loadingProgress`, and notifies the callbacks with
the new value (returned here so a run can log the notified sequence). -/
def updateLoadingProgress (s : AudioState) : AudioState × Nat :=
  let loaded := s.loadedSounds + 1
  let p := roundPercent loaded s.totalSounds
  ({ s with loadedSounds := loaded, loadingProgress := p }, p)

/-- The `.then` continuation's write `buffers[i - 1] = buffer` into the array
registered for drum `d`. -/
def setSlot (d : String) (i : Nat) (s : AudioState) : AudioState :=
  match s.buffers d with
  | none => s
  | some arr =>
    { s with buffers :=
        fun k => if k = d then some (fun j => if j = i - 1 then some () else arr j)
                 else s.buffers k }

/-- Settlement of one fetch-and-decode operation for pair `p = (d, i)`: on
success the slot is written, on failure only a warning is logged; either way
`updateLoadingProgress` runs.  The accumulator carries the state and the list
of progress values notified so far. -/
def settleLoad (ok : String → Nat → Bool) (p : String × Nat)
    (acc : AudioState × List Nat) : AudioState × List Nat :=
  let s := if ok p.1 p.2 then setSlot p.1 p.2 acc.1 else acc.1
  let r := updateLoadingProgress s
  (r.1, acc.2 ++ [r.2])

/-- The registration order of the 33 load operations: for each drum type the
variants `1, 2, 3`. -/
def catalogPairs : List (String × Nat) :=
  drumTypes.flatMap (fun d => [(d, 1), (d, 2), (d, 3)])

/-- The empty per-drum arrays installed by `this.buffers.set(drumType, buffers)`
at the start of `preloadSounds`. -/
def emptyBuffers : BufferMap :=
  fun d => if d ∈ drumTypes then some (fun _ => none) else none

/-- `AudioService.preloadSounds` (lines 39–87): resets the loading counters,
installs the empty buffer arrays, lets the 33 operations settle in the given
completion `order`, then clears `isLoading`, sets progress to 100 and notifies
100 once more.  Returns the final state and the full sequence of notified
progress values. -/
def preloadSounds (ok : String → Nat → Bool) (order : List (String × Nat))
    (s : AudioState) : AudioState × List Nat :=
  let s0 : AudioState :=
    { s with isLoading := true, loadingProgress := 0, loadedSounds := 0,
             totalSounds := drumTypes.length * 3, buffers := emptyBuffers }
  let r := order.foldl (fun acc p => settleLoad ok p acc) (s0, [])
  ({ r.1 with isLoading := false, loadingProgress := 100 }, r.2 ++ [100])

/-- A sequential, completed run of `AudioService.initialize`
(lines 14–37): guard on `isInitialized`, allocate the context and the master
gain node (gain set to `masterVolume`), run `preloadSounds` to completion,
then set `isInitialized`.  (The in-flight interleaving of two calls is
modelled separately by `initStep` below.) -/
def initService (ok : String → Nat → Bool) (order : List (String × Nat))
    (s : AudioState) : AudioState × List Nat :=
  if s.isInitialized then (s, [])
  else
    let s1 : AudioState :=
      { s with audioContext := true, masterGainNode := some s.masterVolume }
    let r := preloadSounds ok order s1
    ({ r.1 with isInitialized := true }, r.2)

/-! ## AudioService: the playback engine -/

/-- The lookup `this.buffers.get(drumType)` followed by the read
`buffers[variant]`; `none` covers both a missing map entry and an
absent/out-of-range slot. -/
def getSlot (s : AudioState) (d : String) (v : Nat) : Option Unit :=
  match s.buffers d with
  | none => none
  | some arr => arr v

/-- `AudioService.playSound` (lines 121–173): guards (not initialized /
loading / slot missing) return `null`; otherwise resume a suspended context,
create a source with its own unit gain node routed through the master gain,
add it to `activeSources`, start it, and return it.  The returned handle is
the source id. -/
def playSound (s : AudioState) (drumType : String) (variant : Nat) :
    Option Nat × AudioState :=
  if !(s.isInitialized && s.audioContext && s.masterGainNode.isSome) then (none, s)
  else if s.isLoading then (none, s)
  else
    match getSlot s drumType variant with
    | none => (none, s)
    | some _ =>
      let s1 := if s.ctxSuspended then { s with ctxSuspended := false } else s
      (some s1.nextSourceId,
       { s1 with activeSources := s1.activeSources ++ [⟨s1.nextSourceId, false⟩],
                 nextSourceId := s1.nextSourceId + 1 })

/-- `AudioService.setVolume` (lines 175–180): clamp to `[0, 1]`, store in
`masterVolume`, and apply to the master gain node when both the node and the
context exist. -/
def setVolume (v : ℚ) (s : AudioState) : AudioState :=
  let mv := max 0 (min 1 v)
  { s with masterVolume := mv,
           masterGainNode :=
             if s.masterGainNode.isSome && s.audioContext then some mv
             else s.masterGainNode }

/-- `AudioService.isReady` (lines 211–213). -/
def isReady (s : AudioState) : Bool := s.isInitialized && !s.isLoading

/-- `source.stop()` on an `AudioBufferSourceNode`: throws an
`InvalidStateError` when the source already finished or was stopped. -/
def stopSource (u : SourceUnit) : Except String Unit :=
  if u.finished then Except.error "InvalidStateError" else Except.ok ()

/-- The loop body of `stopAllSounds`:
`try { source.stop() } catch (error) { /- might already be stopped -/ }`. -/
def stopCatching (u : SourceUnit) : Except String Unit :=
  match stopSource u with
  | Except.ok _ => Except.ok ()
  | Except.error _ => Except.ok ()

/-- `AudioService.stopAllSounds` (lines 223–232): `forEach` over the active
sources, each `stop()` wrapped in the `try`/`catch` of `stopCatching`, then
`activeSources.clear()`.  The `Except` layer makes the possible
`InvalidStateError` (and its swallowing) explicit. -/
def stopAllSounds (s : AudioState) : Except String AudioState := do
  let _ ← s.activeSources.foldlM (fun (_ : Unit) u => stopCatching u) ()
  Except.ok { s with activeSources := [] }

/-- `AudioService.getActiveSoundCount` (lines 235–237). -/
def getActiveSoundCount (s : AudioState) : Nat := s.activeSources.length

/-- `AudioService.canPlaySimultaneousSounds` (lines 240–244):
`return count <= 16`, reading none of the instance fields. -/
def canPlaySimultaneousSounds (_s : AudioState) (count : ℤ) : Bool :=
  decide (count ≤ 16)

/-! ## configStore (`src/stores/configStore.ts`) -/

/-- The persisted `DrumPadConfig` record. -/
structure DrumPadConfig where
  hihatClosed : Bool
  useRimshot : Bool
  volume : ℚ
  currentTheme : String
  currentView : String
  deriving DecidableEq, Repr

/-- The default configuration (configStore lines 19–25). -/
def defaultConfig : DrumPadConfig where
  hihatClosed := true
  useRimshot := false
  volume := 7/10
  currentTheme := "dark"
  currentView := "drumpad"

/-- `configStore.setVolume` (lines 41–43): stores the argument as given,
without clamping. -/
def configSetVolume (v : ℚ) (c : DrumPadConfig) : DrumPadConfig :=
  { c with volume := v }

/-! ## drumpadStore: recorder / sequencer

The Pinia drumpad store holds the recorder state (`isRecording`,
`isPlaying`, `recordedEvents`, `recordingStartTime`) and re-invokes the
playback engine through `playDrum`.  Replay scheduling uses `setTimeout`;
the model keeps the pending timers in registration order in `timers` and a
`fireTimer` operation runs one callback (the JS event loop fires timers one
at a time).  `playLog` records each `playDrum` re-invocation actually made
by a replay callback, i.e. each time a scheduled callback passes its
`if (!isPlaying.value) return` check and calls `playDrum`.

The `activePads` visual-feedback set (and its 150 ms `setTimeout`) is
UI-only presentation and appears in no claim, so it is not modelled. -/

/-- A `RecordedEvent` (`src/types`): relative timestamp in ms, pad id,
variant index. -/
structure RecordedEvent where
  timestamp : Nat
  drumId : String
  variant : Nat
  deriving DecidableEq, Repr

/-- The callback bound to a pending `setTimeout` of the store: either one
replay re-invocation of `playDrum` for a recorded event, or the auto-stop
at `longestEvent + 500`. -/
inductive TimerAction where
  | replayEvent (e : RecordedEvent)
  | autoStop
  deriving DecidableEq, Repr

/-- A pending `setTimeout`: absolute fire time and its callback. -/
structure Timer where
  fireAt : Nat
  action : TimerAction
  deriving DecidableEq, Repr

/-- State of the drumpad store (plus the collaborating audio service and
config store, and the pending-timer queue of the event loop). -/
structure StoreState where
  audio : AudioState
  config : DrumPadConfig
  isRecording : Bool
  isPlaying : Bool
  recordedEvents : List RecordedEvent
  recordingStartTime : Nat
  isAudioReady : Bool
  timers : List Timer
  playLog : List (Nat × String × Nat)

/-- `drumId.toUpperCase()` for the ASCII pad ids: uppercase every
character. -/
def toUpperStr (s : String) : String := String.mk (s.data.map Char.toUpper)

/-- `soundType` resolution in `playDrum`: `drumId.toUpperCase()` overridden
by the hi-hat and snare/rimshot toggles. -/
def soundTypeFor (c : DrumPadConfig) (drumId : String) : String :=
  if drumId = "hihat" then (if c.hihatClosed then "HIHAT" else "HIHAT_O")
  else if drumId = "snare" then (if c.useRimshot then "RIMSHOT" else "SNARE")
  else toUpperStr drumId

/-- `drumpadStore.playDrum`: no-op while audio is not ready; otherwise play
`soundType` at `forceVariant ?? variantGenerator.next().value` (the
generator draw is the explicit argument `randomVariant`, consulted only when
`forceVariant` is absent), and on a non-null source append a recorded event
when armed.  `now` is the wall clock (`Date.now()`). -/
def playDrum (now : Nat) (drumId : String) (forceVariant : Option Nat)
    (randomVariant : Nat) (s : StoreState) : StoreState :=
  if !s.isAudioReady then s
  else
    let variant := forceVariant.getD randomVariant
    let soundType := soundTypeFor s.config drumId
    let r := playSound s.audio soundType variant
    match r.1 with
    | none => { s with audio := r.2 }
    | some _ =>
      if s.isRecording then
        { s with audio := r.2,
                 recordedEvents := s.recordedEvents ++
                   [⟨now - s.recordingStartTime, drumId, variant⟩] }
      else { s with audio := r.2 }

/-- `drumpadStore.startRecording`. -/
def startRecording (now : Nat) (s : StoreState) : StoreState :=
  { s with recordedEvents := [], recordingStartTime := now, isRecording := true }

/-- `drumpadStore.stopRecording`. -/
def stopRecording (s : StoreState) : StoreState :=
  { s with isRecording := false }

/-- `Math.max(...recordedEvents.map(e => e.timestamp))`; every call site
passes a non-empty list. -/
def maxTimestamp (evs : List RecordedEvent) : Nat :=
  (evs.map (fun e => e.timestamp)).foldl Nat.max 0

/-- `drumpadStore.playRecording` (lines 151–168): early return when there are
no recorded events or a replay is already in progress; otherwise set
`isPlaying`, register one `setTimeout` per recorded event at its relative
offset, and register the auto-stop `setTimeout` at
`longestEvent + 500`.  `now` is replay start time. -/
def playRecording (now : Nat) (s : StoreState) : StoreState :=
  if s.recordedEvents.length = 0 || s.isPlaying then s
  else
    { s with isPlaying := true,
             timers := s.timers ++
               s.recordedEvents.map
                 (fun e => Timer.mk (now + e.timestamp) (TimerAction.replayEvent e)) ++
               [Timer.mk (now + maxTimestamp s.recordedEvents + 500)
                  TimerAction.autoStop] }

/-- `drumpadStore.stopPlaying` (lines 170–172): clears the flag only; the
pending `setTimeout`s are not cancelled. -/
def stopPlaying (s : StoreState) : StoreState :=
  { s with isPlaying := false }

/-- `drumpadStore.togglePlaying` (lines 174–180). -/
def togglePlaying (now : Nat) (s : StoreState) : StoreState :=
  if s.isPlaying then stopPlaying s else playRecording now s

/-- `drumpadStore.clearRecording`. -/
def clearRecording (s : StoreState) : StoreState :=
  { s with recordedEvents := [], isPlaying := false }

/-- `drumpadStore.setVolume` (lines 187–190): forwards the raw value to the
config store, and the same value to the engine (which clamps). -/
def storeSetVolume (v : ℚ) (s : StoreState) : StoreState :=
  { s with config := configSetVolume v s.config, audio := setVolume v s.audio }

/-- Run the callback of one due timer.  A replay callback re-checks
`isPlaying` at fire time and only then re-invokes `playDrum` (logged in
`playLog`); the auto-stop callback unconditionally clears `isPlaying`.  The
replay path passes `some e.variant`, so the variant generator is not
consulted (`randomVariant` is irrelevant and fixed to 0). -/
def fireAction (t : Timer) (s : StoreState) : StoreState :=
  match t.action with
  | TimerAction.replayEvent e =>
    if !s.isPlaying then s
    else
      playDrum t.fireAt e.drumId (some e.variant) 0
        { s with playLog := s.playLog ++ [(t.fireAt, e.drumId, e.variant)] }
  | TimerAction.autoStop => { s with isPlaying := false }

/-- Fire the pending timer at queue position `i`: remove it from the queue
and run its callback (no-op when `i` is out of range). -/
def fireTimer (i : Nat) (s : StoreState) : StoreState :=
  match s.timers.get? i with
  | none => s
  | some t => fireAction t { s with timers := s.timers.eraseIdx i }

/-- Fire a sequence of pending timers (given by queue positions), one at a
time, as the event loop does.  No store action is interleaved, so a run of
`runFires` is a period in which only scheduled callbacks execute. -/
def runFires : List Nat → StoreState → StoreState
  | [], s => s
  | i :: is, s => runFires is (fireTimer i s)

/-- A convenient fully-idle concrete store state (fresh page with audio
loaded and ready). -/
def readyStoreState : StoreState where
  audio :=
    { initialAudioState with
        audioContext := true
        isInitialized := true
        masterGainNode := some (7/10)
        buffers := emptyBuffers }
  config := defaultConfig
  isRecording := false
  isPlaying := false
  recordedEvents := []
  recordingStartTime := 0
  isAudioReady := true
  timers := []
  playLog := []

/-! ## Interleaving model for `initialize`

`initialize` is `async`; on the single-threaded event loop its body runs
atomically up to the `await this.preloadSounds()` suspension point and the
remainder (`this.isInitialized = true`) runs atomically when the preload
batch settles.  Two in-flight calls (the module-level `preload()` and the
store's `initializeAudio → preload()`) therefore interleave only at that
await.  Each call is a small coroutine with a program counter; `initStep`
advances one call by one atomic segment.  The per-asset settlements inside
the batch are irrelevant to initialization idempotence and are folded into
the batch-settlement segment (the sequential loader itself is modelled in
full by `preloadSounds`). -/

/-- Program counter of one `initialize()` call. -/
inductive InitPC where
  | atStart
  | awaitingBatch
  | finished
  deriving DecidableEq, Repr

/-- Which of the two concurrent `initialize()` calls advances. -/
inductive InitCall where
  | A
  | B
  deriving DecidableEq, Repr

/-- Shared service state plus the two calls' program counters, instrumented
with how many preload batches were started and how many `AudioContext`s
were created. -/
structure InitSystem where
  audio : AudioState
  pcA : InitPC
  pcB : InitPC
  batchesStarted : Nat
  contextsCreated : Nat

/-- The program counter of call `c`. -/
def InitSystem.pc (s : InitSystem) (c : InitCall) : InitPC :=
  match c with
  | InitCall.A => s.pcA
  | InitCall.B => s.pcB

/-- Replace the program counter of call `c`. -/
def InitSystem.setPc (s : InitSystem) (c : InitCall) (p : InitPC) : InitSystem :=
  match c with
  | InitCall.A => { s with pcA := p }
  | InitCall.B => { s with pcB := p }

/-- Advance call `c` by one atomic segment of `initialize` (lines 14–37):

* at the start: `if (this.isInitialized) return`, else allocate the
  `AudioContext` and master gain node and run the synchronous prefix of
  `preloadSounds` (reset counters, install empty buffers, issue the batch),
  then suspend at `await`;
* when its batch settles: `Promise.all` resumes (`isLoading = false`,
  progress 100) and `initialize` resumes with `this.isInitialized = true`. -/
def initStep (s : InitSystem) (c : InitCall) : InitSystem :=
  match s.pc c with
  | InitPC.atStart =>
    if s.audio.isInitialized then s.setPc c InitPC.finished
    else
      let a : AudioState :=
        { s.audio with
            audioContext := true
            masterGainNode := some s.audio.masterVolume
            isLoading := true
            loadingProgress := 0
            loadedSounds := 0
            totalSounds := drumTypes.length * 3
            buffers := emptyBuffers }
      (InitSystem.mk a s.pcA s.pcB (s.batchesStarted + 1)
          (s.contextsCreated + 1)).setPc c InitPC.awaitingBatch
  | InitPC.awaitingBatch =>
    let a : AudioState :=
      { s.audio with isLoading := false, loadingProgress := 100,
                     isInitialized := true }
    { s.setPc c InitPC.finished with audio := a }
  | InitPC.finished => s

/-- Run a schedule (an interleaving of the two calls' segments). -/
def runInit (steps : List InitCall) (s : InitSystem) : InitSystem :=
  steps.foldl initStep s

/-- Fresh page: service just constructed, neither call started. -/
def initSystem0 : InitSystem where
  audio := initialAudioState
  pcA := InitPC.atStart
  pcB := InitPC.atStart
  batchesStarted := 0
  contextsCreated := 0

/-! ## Theorems -/

/-- Faithfulness of `roundPercent`: for `total > 0` it is exactly
`Math.round((loaded / total) * 100)`, i.e. `⌊loaded/total · 100 + 1/2⌋`. -/
theorem roundPercent_eq_jsRound (a b : Nat) (hb : 0 < b) :
    (roundPercent a b : ℤ) = ⌊((a : ℚ) / (b : ℚ)) * 100 + 1/2⌋ := by
  have hb' : ((b : ℚ)) ≠ 0 := by positivity
  have h : ((a : ℚ) / (b : ℚ)) * 100 + 1/2
      = ((200 * a + b : ℕ) : ℚ) / ((2 * b : ℕ) : ℚ) := by
    field_simp
    ring
  rw [h, Rat.floor_natCast_div_natCast]
  simp [roundPercent]

/-- Closed instance of `roundPercent_eq_jsRound`. -/
theorem roundPercent_eq_jsRound_inst :
    0 < 33 ∧ (roundPercent 32 33 : ℤ) = ⌊((32 : ℚ) / (33 : ℚ)) * 100 + 1/2⌋ :=
  ⟨by decide, roundPercent_eq_jsRound 32 33 (by decide)⟩

/-! ### C5: starting playback is a no-op when empty or already replaying -/

/-- C5: `playRecording` is a no-op — the whole store state is unchanged and
no timer is registered — when the recorded event list is empty, and likewise
when a replay is already in progress. -/
theorem playRecording_noop_when_empty_or_replaying (now : Nat) (s : StoreState)
    (h : s.recordedEvents = [] ∨ s.isPlaying = true) :
    playRecording now s = s := by
  rcases h with h | h <;> simp [playRecording, h]

/-- Witness for C5 at two concrete states: a ready store with no recording,
and a mid-replay store with one recorded event. -/
theorem playRecording_noop_witness :
    (readyStoreState.recordedEvents = [] ∨ readyStoreState.isPlaying = true) ∧
    playRecording 5 readyStoreState = readyStoreState ∧
    playRecording 5 { readyStoreState with
        recordedEvents := [⟨0, "kick", 0⟩], isPlaying := true } =
      { readyStoreState with
        recordedEvents := [⟨0, "kick", 0⟩], isPlaying := true } :=
  ⟨Or.inl rfl,
   playRecording_noop_when_empty_or_replaying 5 readyStoreState (Or.inl rfl),
   playRecording_noop_when_empty_or_replaying 5 _ (Or.inr rfl)⟩

/-! ### C7: stopAll clears the active set and never raises -/

/-- C7: `stopAllSounds` never propagates an error — stopping a unit that
already finished naturally is swallowed by the `try`/`catch` — and it
force-stops and removes every unit, so `getActiveSoundCount` is 0
immediately afterwards.  Universally quantified over the state, hence over
active sets containing already-finished units. -/
theorem stopAllSounds_clears_active_set (s : AudioState) :
    stopAllSounds s = Except.ok { s with activeSources := [] } ∧
    getActiveSoundCount { s with activeSources := [] } = 0 := by
  have hfold : ∀ (l : List SourceUnit),
      (l.foldlM (fun (_ : Unit) u => stopCatching u) () : Except String Unit) =
        Except.ok () := by
    intro l
    induction l with
    | nil => rfl
    | cons u t ih =>
      have hc : stopCatching u = Except.ok () := by
        unfold stopCatching stopSource
        by_cases h : u.finished <;> simp [h]
      simp [List.foldlM_cons, hc, ih]
      rfl
  constructor
  · unfold stopAllSounds
    rw [hfold]
    rfl
  · rfl

/-! ### C8: volume clamping (engine yes, persisted config no) -/

/-- Counterexample to C8 as stated: after `setVolume(2)` through the store,
the persisted `Config.volume` is 2, violating the claimed invariant
`volume ≤ 1` (the store forwards the raw value to `configStore.setVolume`,
which does not clamp). -/
theorem storeSetVolume_config_unclamped :
    ¬ ((storeSetVolume 2 readyStoreState).config.volume ≤ 1) := by
  simp only [storeSetVolume, configSetVolume]
  norm_num

/-- C8 (amended): for every input the engine clamps — after any call the
engine's `masterVolume` satisfies `0 ≤ v ≤ 1`, and on the engine
`setVolume(-1)` behaves as `setVolume(0)` and `setVolume(2)` as
`setVolume(1)` — but the stored `Config.volume` receives the raw,
unclamped argument. -/
theorem setVolume_clamps_engine_not_config (v : ℚ) (s : StoreState) :
    0 ≤ (storeSetVolume v s).audio.masterVolume ∧
    (storeSetVolume v s).audio.masterVolume ≤ 1 ∧
    setVolume (-1) s.audio = setVolume 0 s.audio ∧
    setVolume 2 s.audio = setVolume 1 s.audio ∧
    (storeSetVolume v s).config.volume = v := by
  refine ⟨le_max_left 0 _, max_le zero_le_one (min_le_left 1 v), ?_, ?_, rfl⟩
  · unfold setVolume
    norm_num
  · unfold setVolume
    norm_num

/-! ### C9: canPlaySimultaneousSounds is a pure, non-gating policy check -/

/-- C9: `canPlaySimultaneousSounds` returns exactly whether `count` is within
the ceiling 16, its result is independent of the engine state (it reads and
mutates nothing), and it does not gate `play`: the result of `playSound` is
the same whatever the active set is — in particular `playSound` succeeds even
with arbitrarily many units active. -/
theorem canPlaySimultaneous_pure_not_gating (s1 s2 : AudioState) (n : ℤ)
    (d : String) (v : Nat) (l : List SourceUnit) :
    canPlaySimultaneousSounds s1 n = decide (n ≤ 16) ∧
    canPlaySimultaneousSounds s1 n = canPlaySimultaneousSounds s2 n ∧
    (playSound { s1 with activeSources := l } d v).1 = (playSound s1 d v).1 := by
  refine ⟨rfl, rfl, ?_⟩
  obtain ⟨ac, cs, bf, mv, ii, il, lp, ts, ls, as0, ns, mg⟩ := s1
  dsimp only [playSound, getSlot]
  split
  · rfl
  · split
    · rfl
    · split <;> [rfl; split <;> rfl]

/-! ### Replay cancellation machinery (C3, C6, C10)

The cooperative-cancellation core: once `isPlaying` is false, firing any
pending timer neither re-invokes `playDrum` nor re-raises the flag. -/

/-- `playDrum` never touches the replay flag, the timer queue, or the replay
log. -/
theorem playDrum_preserves_replay_fields (now : Nat) (drumId : String)
    (fv : Option Nat) (rv : Nat) (s : StoreState) :
    (playDrum now drumId fv rv s).isPlaying = s.isPlaying ∧
    (playDrum now drumId fv rv s).timers = s.timers ∧
    (playDrum now drumId fv rv s).playLog = s.playLog := by
  unfold playDrum
  split
  · exact ⟨rfl, rfl, rfl⟩
  · dsimp only
    split
    · exact ⟨rfl, rfl, rfl⟩
    · split <;> exact ⟨rfl, rfl, rfl⟩

/-- Firing one timer from a non-replaying state keeps the state
non-replaying and adds nothing to the replay log: the replay callback's
fire-time check `if (!isPlaying.value) return` makes it a no-op, and the
auto-stop callback only re-clears the flag. -/
theorem fireTimer_of_not_playing (i : Nat) (s : StoreState)
    (h : s.isPlaying = false) :
    (fireTimer i s).isPlaying = false ∧ (fireTimer i s).playLog = s.playLog := by
  unfold fireTimer
  cases hg : s.timers.get? i with
  | none => exact ⟨h, rfl⟩
  | some t =>
    cases ha : t.action with
    | replayEvent e => simp [fireAction, ha, h]
    | autoStop => simp [fireAction, ha]

/-- Firing any sequence of pending timers from a non-replaying state keeps
the state non-replaying and adds nothing to the replay log. -/
theorem runFires_of_not_playing (fs : List Nat) (s : StoreState)
    (h : s.isPlaying = false) :
    (runFires fs s).isPlaying = false ∧ (runFires fs s).playLog = s.playLog := by
  induction fs generalizing s with
  | nil => exact ⟨h, rfl⟩
  | cons i is ih =>
    obtain ⟨h1, h2⟩ := fireTimer_of_not_playing i s h
    obtain ⟨g1, g2⟩ := ih (fireTimer i s) h1
    exact ⟨g1, by rw [runFires, g2, h2]⟩

/-! ### C3: stop suppresses every not-yet-fired scheduled replay callback -/

/-- C3: after `stopPlaying`, firing any sequence of still-pending scheduled
callbacks (in any order, i.e. at any later fire times) re-invokes `playDrum`
for none of them — the replay log is unchanged — because each callback
re-checks `isPlaying` at fire time; and the state stays out of replay.
In particular, for a sequence spanning 1000 ms stopped at 100 ms, no
re-invocation fires for the events scheduled beyond the stop. -/
theorem stopPlaying_suppresses_pending_callbacks (s : StoreState)
    (fs : List Nat) :
    (runFires fs (stopPlaying s)).playLog = s.playLog ∧
    (runFires fs (stopPlaying s)).isPlaying = false := by
  obtain ⟨h1, h2⟩ := runFires_of_not_playing fs (stopPlaying s) rfl
  exact ⟨h2, h1⟩

/-! ### C6: auto-return to Idle at `maxTimestamp + 500` -/

/-- An element survives `eraseIdx i` when it is not the element at
position `i`. -/
theorem mem_eraseIdx_of_getElem_ne {α : Type} (a : α) (l : List α) (i : Nat)
    (hm : a ∈ l) (hne : ∀ (h : i < l.length), l[i] ≠ a) : a ∈ l.eraseIdx i := by
  rw [List.mem_eraseIdx_iff_getElem]
  obtain ⟨j, hj, hja⟩ := List.mem_iff_getElem.mp hm
  refine ⟨j, hj, ?_, hja⟩
  rintro rfl
  exact hne hj hja

/-- Firing a timer never registers a new timer: the queue only shrinks by the
fired entry. -/
theorem fireTimer_timers (i : Nat) (s : StoreState) :
    (fireTimer i s).timers = s.timers.eraseIdx i := by
  unfold fireTimer
  cases hg : s.timers.get? i with
  | none =>
    have : s.timers.length ≤ i := by
      by_contra hlt
      rw [List.get?_eq_getElem?] at hg
      exact absurd hg (by simp [List.getElem?_eq_getElem (Nat.lt_of_not_le hlt)])
    rw [List.eraseIdx_of_length_le this]
  | some t =>
    cases ha : t.action with
    | replayEvent e =>
      dsimp [fireAction]
      rw [ha]
      dsimp only
      split
      · rfl
      · exact (playDrum_preserves_replay_fields _ _ _ _ _).2.1
    | autoStop =>
      dsimp [fireAction]
      rw [ha]

/-- As long as an auto-stop callback is still pending (or the replay flag is
already down), a run of timer firings that drains the queue ends with the
replay flag down: the auto-stop fires at some point of the run and nothing
after it can re-raise the flag. -/
theorem runFires_pending_autoStop (fs : List Nat) (s : StoreState)
    (h : s.isPlaying = false ∨ ∃ t ∈ s.timers, t.action = TimerAction.autoStop)
    (he : (runFires fs s).timers = []) :
    (runFires fs s).isPlaying = false := by
  induction fs generalizing s with
  | nil =>
    rcases h with h | ⟨t, ht, _⟩
    · exact h
    · rw [runFires] at he
      rw [he] at ht
      exact absurd ht (List.not_mem_nil t)
  | cons i is ih =>
    rw [runFires] at he ⊢
    apply ih _ ?_ he
    rcases h with h | ⟨t, ht, ha⟩
    · exact Or.inl (fireTimer_of_not_playing i s h).1
    · cases hg : s.timers.get? i with
      | none =>
        right
        refine ⟨t, ?_, ha⟩
        unfold fireTimer
        rw [hg]
        exact ht
      | some u =>
        cases hu : u.action with
        | autoStop =>
          left
          unfold fireTimer
          rw [hg]
          dsimp [fireAction]
          rw [hu]
        | replayEvent e =>
          right
          refine ⟨t, ?_, ha⟩
          rw [fireTimer_timers]
          apply mem_eraseIdx_of_getElem_ne t s.timers i ht
          intro hlt heq
          rw [List.get?_eq_getElem?, List.getElem?_eq_getElem hlt] at hg
          have hut : u = t := by rw [← heq, Option.some.inj hg]
          rw [hut, ha] at hu
          exact TimerAction.noConfusion hu

/-- When the guard passes (non-empty recording, not already replaying),
`playRecording` raises the flag and registers the per-event timers followed
by the auto-stop timer. -/
theorem playRecording_run (now : Nat) (s : StoreState)
    (h1 : s.recordedEvents ≠ []) (h2 : s.isPlaying = false) :
    playRecording now s =
      { s with isPlaying := true,
               timers := s.timers ++
                 s.recordedEvents.map
                   (fun e => Timer.mk (now + e.timestamp)
                     (TimerAction.replayEvent e)) ++
                 [Timer.mk (now + maxTimestamp s.recordedEvents + 500)
                    TimerAction.autoStop] } := by
  rw [playRecording]
  simp [h2, List.length_eq_zero, h1]

/-- C6: for every non-empty recording, starting a replay schedules its
auto-stop callback last, at `start + maxTimestamp + 500`; and a replay that
is never explicitly stopped — any run consisting only of timer firings that
drains the pending queue — ends with the replaying flag cleared. -/
theorem playRecording_auto_return (now : Nat) (s : StoreState) (fs : List Nat)
    (h1 : s.recordedEvents ≠ []) (h2 : s.isPlaying = false)
    (hall : (runFires fs (playRecording now s)).timers = []) :
    (playRecording now s).isPlaying = true ∧
    (playRecording now s).timers.getLast? =
      some ⟨now + maxTimestamp s.recordedEvents + 500, TimerAction.autoStop⟩ ∧
    (runFires fs (playRecording now s)).isPlaying = false := by
  have hrun := playRecording_run now s h1 h2
  refine ⟨by rw [hrun], ?_, ?_⟩
  · rw [hrun]
    exact List.getLast?_concat _
  · apply runFires_pending_autoStop fs _ _ hall
    right
    refine ⟨⟨now + maxTimestamp s.recordedEvents + 500, TimerAction.autoStop⟩,
      ?_, rfl⟩
    rw [hrun]
    exact List.mem_append_right _ (List.mem_singleton.mpr rfl)

/-- Witness for C6: recording events at 0 ms and 200 ms and replaying from
time 0 schedules the auto-stop at 700 ms (= 200 + 500), and draining the
three timers returns the store to Idle. -/
theorem playRecording_auto_return_witness :
    ({ readyStoreState with
        recordedEvents := [⟨0, "kick", 0⟩, ⟨200, "snare", 1⟩] } :
          StoreState).recordedEvents ≠ [] ∧
    (playRecording 0 { readyStoreState with
        recordedEvents := [⟨0, "kick", 0⟩, ⟨200, "snare", 1⟩] }).timers.getLast? =
      some ⟨700, TimerAction.autoStop⟩ ∧
    (runFires [0, 0, 0] (playRecording 0 { readyStoreState with
        recordedEvents := [⟨0, "kick", 0⟩, ⟨200, "snare", 1⟩] })).isPlaying =
      false := by
  have H := playRecording_auto_return 0
    { readyStoreState with recordedEvents := [⟨0, "kick", 0⟩, ⟨200, "snare", 1⟩] }
    [0, 0, 0] (by decide) rfl (by decide)
  exact ⟨by decide, by simpa [maxTimestamp] using H.2.1, H.2.2⟩

/-! ### C10: a stale auto-stop timer kills a second replay -/

/-- C10: stopping a replay does not cancel its pending auto-stop timer
(`stopPlaying` touches no timer), so when a second replay starts while that
timer is still pending, the timer is still in the queue; when it fires it
clears the replaying flag even though it belongs to the stopped first
replay, and from then on every still-pending scheduled event — in
particular every not-yet-fired event of the second replay — is suppressed
(the replay log no longer grows). -/
theorem staleAutoStop_suppresses_second_replay (s : StoreState)
    (t1 tA i : Nat) (fs : List Nat)
    (hi : s.timers.get? i = some ⟨tA, TimerAction.autoStop⟩)
    (hne : s.recordedEvents ≠ []) :
    (stopPlaying s).timers = s.timers ∧
    (playRecording t1 (stopPlaying s)).timers.get? i =
      some ⟨tA, TimerAction.autoStop⟩ ∧
    (playRecording t1 (stopPlaying s)).isPlaying = true ∧
    (fireTimer i (playRecording t1 (stopPlaying s))).isPlaying = false ∧
    (runFires fs (fireTimer i (playRecording t1 (stopPlaying s)))).playLog =
      (fireTimer i (playRecording t1 (stopPlaying s))).playLog := by
  have hrun := playRecording_run t1 (stopPlaying s) hne rfl
  have hilt : i < s.timers.length := by
    by_contra hle
    rw [List.get?_eq_getElem?, List.getElem?_eq_none (Nat.le_of_not_lt hle)] at hi
    exact Option.noConfusion hi
  have hget : (playRecording t1 (stopPlaying s)).timers.get? i =
      some ⟨tA, TimerAction.autoStop⟩ := by
    rw [hrun]
    dsimp only [stopPlaying]
    rw [List.append_assoc, List.get?_eq_getElem?,
      List.getElem?_append_left hilt, ← List.get?_eq_getElem?]
    exact hi
  have hfire : (fireTimer i (playRecording t1 (stopPlaying s))).isPlaying
      = false := by
    unfold fireTimer
    rw [hget]
    rfl
  exact ⟨rfl, hget, by rw [hrun], hfire,
    (runFires_of_not_playing fs _ hfire).2⟩

/-- Witness for C10: a first replay of one event at 1000 ms (auto-stop
pending at 1500 ms) is stopped; a second replay of the same recording starts
at 200 ms; the stale auto-stop timer is still queued at position 1, firing it
clears the flag, and firing the three remaining timers re-invokes nothing. -/
theorem staleAutoStop_suppresses_second_replay_witness :
    ((playRecording 0 { readyStoreState with
        recordedEvents := [⟨1000, "hihat", 0⟩] }).timers.get? 1 =
      some ⟨1500, TimerAction.autoStop⟩) ∧
    ((stopPlaying (playRecording 0 { readyStoreState with
        recordedEvents := [⟨1000, "hihat", 0⟩] })).timers =
      (playRecording 0 { readyStoreState with
        recordedEvents := [⟨1000, "hihat", 0⟩] }).timers) ∧
    ((fireTimer 1 (playRecording 200 (stopPlaying (playRecording 0
        { readyStoreState with
          recordedEvents := [⟨1000, "hihat", 0⟩] })))).isPlaying = false) ∧
    ((runFires [0, 0, 0] (fireTimer 1 (playRecording 200 (stopPlaying
        (playRecording 0 { readyStoreState with
          recordedEvents := [⟨1000, "hihat", 0⟩] }))))).playLog =
      (fireTimer 1 (playRecording 200 (stopPlaying (playRecording 0
        { readyStoreState with
          recordedEvents := [⟨1000, "hihat", 0⟩] })))).playLog) := by
  have H := staleAutoStop_suppresses_second_replay
    (playRecording 0 { readyStoreState with
      recordedEvents := [⟨1000, "hihat", 0⟩] })
    200 1500 1 [0, 0, 0] (by decide) (by decide)
  exact ⟨by decide, H.1, H.2.2.2.1, H.2.2.2.2⟩

/-! ### C1: initialization idempotence -/

/-- Once initialization has completed (`isInitialized` set) and no call is
parked at the `await`, every further `initialize` segment is a no-op: the
guard `if (this.isInitialized) return` fires, so the audio state and the
batch count never change again. -/
theorem runInit_frozen_after_completion (steps : List InitCall) (s : InitSystem)
    (h : s.audio.isInitialized = true)
    (hA : s.pcA ≠ InitPC.awaitingBatch) (hB : s.pcB ≠ InitPC.awaitingBatch) :
    (runInit steps s).audio = s.audio ∧
    (runInit steps s).batchesStarted = s.batchesStarted := by
  induction steps generalizing s with
  | nil => exact ⟨rfl, rfl⟩
  | cons c cs ih =>
    have hstep : (initStep s c).audio = s.audio ∧
        (initStep s c).batchesStarted = s.batchesStarted ∧
        (initStep s c).pcA ≠ InitPC.awaitingBatch ∧
        (initStep s c).pcB ≠ InitPC.awaitingBatch := by
      unfold initStep
      cases c with
      | A =>
        have : s.pc InitCall.A = s.pcA := rfl
        rw [this]
        cases hA' : s.pcA with
        | atStart => simp [h, InitSystem.setPc, hB]
        | awaitingBatch => exact absurd hA' hA
        | finished =>
          refine ⟨rfl, rfl, ?_, hB⟩
          dsimp only
          rw [hA']
          decide
      | B =>
        have : s.pc InitCall.B = s.pcB := rfl
        rw [this]
        cases hB' : s.pcB with
        | atStart => simp [h, InitSystem.setPc, hA]
        | awaitingBatch => exact absurd hB' hB
        | finished =>
          refine ⟨rfl, rfl, hA, ?_⟩
          dsimp only
          rw [hB']
          decide
    have hinit : (initStep s c).audio.isInitialized = true := by
      rw [hstep.1]; exact h
    obtain ⟨g1, g2⟩ := ih (initStep s c) hinit hstep.2.2.1 hstep.2.2.2
    rw [runInit] at g1 g2 ⊢
    rw [List.foldl_cons] at *
    exact ⟨by rw [g1, hstep.1], by rw [g2, hstep.2.1]⟩

/-- Counterexample to C1 as stated: the guard reads `isInitialized`, which is
set only after the awaited preload finishes, so a second `initialize()` call
arriving while the first is parked at its `await` passes the guard — the
schedule A-starts, B-starts, A-resumes, B-resumes creates two
`AudioContext`s and starts two preload batches, not one. -/
theorem initStep_concurrent_two_batches :
    (runInit [InitCall.A, InitCall.B, InitCall.A, InitCall.B]
        initSystem0).batchesStarted = 2 ∧
    (runInit [InitCall.A, InitCall.B, InitCall.A, InitCall.B]
        initSystem0).contextsCreated = 2 := by
  exact ⟨by decide, by decide⟩

/-- C1 (amended): `initialize` is idempotent only with respect to completed
initialization: after a call has run to completion (schedule A-starts,
A-resumes: exactly one context, one batch, `isInitialized` set), every
subsequent call — under any schedule — is a guarded no-op: the audio state
is unchanged and the batch count stays 1.  (A call made while an earlier one
is still in flight is not a no-op; see the counterexample.) -/
theorem initStep_noop_after_completed (steps : List InitCall) :
    (runInit steps (runInit [InitCall.A, InitCall.A] initSystem0)).audio =
      (runInit [InitCall.A, InitCall.A] initSystem0).audio ∧
    (runInit steps
        (runInit [InitCall.A, InitCall.A] initSystem0)).batchesStarted = 1 ∧
    (runInit [InitCall.A, InitCall.A] initSystem0).batchesStarted = 1 ∧
    (runInit [InitCall.A, InitCall.A]
        initSystem0).audio.isInitialized = true := by
  have H := runInit_frozen_after_completion steps
    (runInit [InitCall.A, InitCall.A] initSystem0)
    (by decide) (by decide) (by decide)
  exact ⟨H.1, by rw [H.2]; decide, by decide, by decide⟩

/-! ### C2: progress reporting -/

/-- Writing a sample slot does not touch the progress counters. -/
@[simp] theorem setSlot_loadedSounds (d : String) (i : Nat) (s : AudioState) :
    (setSlot d i s).loadedSounds = s.loadedSounds := by
  unfold setSlot
  cases s.buffers d <;> rfl

/-- Writing a sample slot does not touch the operation total. -/
@[simp] theorem setSlot_totalSounds (d : String) (i : Nat) (s : AudioState) :
    (setSlot d i s).totalSounds = s.totalSounds := by
  unfold setSlot
  cases s.buffers d <;> rfl

/-- One settlement (success or failure alike) increments `loadedSounds` and
notifies `roundPercent` of the new count; the total is untouched. -/
theorem settleLoad_step (ok : String → Nat → Bool) (p : String × Nat)
    (acc : AudioState × List Nat) :
    (settleLoad ok p acc).2 =
      acc.2 ++ [roundPercent (acc.1.loadedSounds + 1) acc.1.totalSounds] ∧
    (settleLoad ok p acc).1.loadedSounds = acc.1.loadedSounds + 1 ∧
    (settleLoad ok p acc).1.totalSounds = acc.1.totalSounds := by
  unfold settleLoad updateLoadingProgress
  by_cases h : ok p.1 p.2 <;> simp [h]

/-- The progress values notified over a completion run depend only on how
many operations have settled: starting from `loadedSounds = m`, a run of `n`
settlements notifies `roundPercent (m+1) T, …, roundPercent (m+n) T`. -/
theorem settleLoad_fold_log (ok : String → Nat → Bool)
    (order : List (String × Nat)) (s : AudioState) (log : List Nat) :
    (order.foldl (fun acc p => settleLoad ok p acc) (s, log)).2 =
      log ++ (List.range order.length).map
        (fun j => roundPercent (s.loadedSounds + j + 1) s.totalSounds) ∧
    (order.foldl (fun acc p => settleLoad ok p acc) (s, log)).1.loadedSounds =
      s.loadedSounds + order.length ∧
    (order.foldl (fun acc p => settleLoad ok p acc) (s, log)).1.totalSounds =
      s.totalSounds := by
  induction order generalizing s log with
  | nil => simp
  | cons p t ih =>
    rw [List.foldl_cons]
    obtain ⟨e1, e2, e3⟩ := settleLoad_step ok p (s, log)
    obtain ⟨ih1, ih2, ih3⟩ :=
      ih (settleLoad ok p (s, log)).1 (settleLoad ok p (s, log)).2
    rw [Prod.mk.eta] at ih1 ih2 ih3
    refine ⟨?_, ?_, ?_⟩
    · rw [ih1, e1, e2, e3]
      have hfun : ∀ j : Nat,
          s.loadedSounds + 1 + j + 1 = s.loadedSounds + (j + 1) + 1 := by
        intro j; omega
      simp [List.range_succ_eq_map, List.map_map, Function.comp, hfun,
        List.append_assoc]
    · rw [ih2, e2]
      simp [List.length_cons]
      omega
    · rw [ih3, e3]

/-- Counterexample to C2 as stated: with all 33 loads succeeding, the loader
notifies the value 100 twice, not exactly once — the 33rd call to
`updateLoadingProgress` already reports `round(33/33·100) = 100`, and the
batch-completion signal then reports 100 again. -/
theorem preload_100_signaled_twice_not_once :
    ¬ (((preloadSounds (fun _ _ => true) catalogPairs
        initialAudioState).2).count 100 = 1) := by decide

/-- C2 (amended): over any completion order of the 3N = 33 operations,
the value notified after the k-th settlement (success and failure both
counted) is exactly `round(k/33·100)`; the sequence of notified values is
non-decreasing (pairwise `≤` in order); 100 is notified only after all operations have settled —
never among the first 32 values — but it is signaled exactly twice, once by
the final per-completion update and once more by the batch-completion
signal, not exactly once. -/
theorem preload_progress_reports (ok : String → Nat → Bool)
    (order : List (String × Nat)) (s : AudioState) (h : order.length = 33) :
    (preloadSounds ok order s).2 =
      (List.range 33).map (fun k => roundPercent (k + 1) 33) ++ [100] ∧
    List.Sorted (· ≤ ·) ((preloadSounds ok order s).2) ∧
    ((preloadSounds ok order s).2).count 100 = 2 ∧
    (((preloadSounds ok order s).2).take 32).count 100 = 0 := by
  have key : (preloadSounds ok order s).2 =
      (List.range 33).map (fun k => roundPercent (k + 1) 33) ++ [100] := by
    simp only [preloadSounds]
    rw [(settleLoad_fold_log ok order _ []).1]
    simp [h, show drumTypes.length * 3 = 33 from rfl]
  refine ⟨key, ?_, ?_, ?_⟩ <;> rw [key] <;> decide

/-- Witness for C2 (amended) at a concrete run: the registration order as
completion order, with the load of `SNARE_2.mp3` failing. -/
theorem preload_progress_reports_witness :
    catalogPairs.length = 33 ∧
    ((preloadSounds (fun d i => !(d = "SNARE" && i = 2)) catalogPairs
        initialAudioState).2 =
      (List.range 33).map (fun k => roundPercent (k + 1) 33) ++ [100] ∧
    List.Sorted (· ≤ ·) ((preloadSounds (fun d i => !(d = "SNARE" && i = 2))
        catalogPairs initialAudioState).2) ∧
    ((preloadSounds (fun d i => !(d = "SNARE" && i = 2)) catalogPairs
        initialAudioState).2).count 100 = 2 ∧
    (((preloadSounds (fun d i => !(d = "SNARE" && i = 2)) catalogPairs
        initialAudioState).2).take 32).count 100 = 0) :=
  ⟨by decide,
   preload_progress_reports (fun d i => !(d = "SNARE" && i = 2))
     catalogPairs initialAudioState (by decide)⟩

/-! ### C4: partial-failure tolerance -/

/-- Reading a slot after the write `buffers[i - 1] = buffer`: the written
position now holds a buffer (when the drum's array exists), every other read
is unchanged. -/
theorem getSlot_setSlot (d' : String) (i : Nat) (s : AudioState)
    (d : String) (v : Nat) :
    getSlot (setSlot d' i s) d v =
      if d = d' ∧ v = i - 1 ∧ (s.buffers d').isSome then some ()
      else getSlot s d v := by
  unfold setSlot getSlot
  cases hb : s.buffers d' with
  | none => simp [hb]
  | some arr =>
    by_cases hd : d = d'
    · subst hd
      by_cases hv : v = i - 1 <;> simp [hb, hv]
    · simp [hb, hd]

/-- Reading a slot after one settlement: `some ()` exactly when this
settlement was the successful load of that very slot, otherwise
unchanged. -/
theorem getSlot_settleLoad (ok : String → Nat → Bool) (p : String × Nat)
    (acc : AudioState × List Nat) (d : String) (v : Nat) :
    getSlot (settleLoad ok p acc).1 d v =
      if ok p.1 p.2 ∧ d = p.1 ∧ v = p.2 - 1 ∧ (acc.1.buffers p.1).isSome
      then some () else getSlot acc.1 d v := by
  unfold settleLoad updateLoadingProgress
  by_cases hok : ok p.1 p.2
  · have : getSlot (setSlot p.1 p.2 acc.1) d v =
        if d = p.1 ∧ v = p.2 - 1 ∧ (acc.1.buffers p.1).isSome then some ()
        else getSlot acc.1 d v := getSlot_setSlot p.1 p.2 acc.1 d v
    simpa [hok] using this
  · simp [hok, getSlot]

/-- A settlement never adds or removes a drum's buffer array (it may only
fill one of its slots). -/
theorem buffers_isSome_settleLoad (ok : String → Nat → Bool) (p : String × Nat)
    (acc : AudioState × List Nat) (d : String) :
    ((settleLoad ok p acc).1.buffers d).isSome = ((acc.1.buffers d).isSome) := by
  unfold settleLoad updateLoadingProgress setSlot
  by_cases hok : ok p.1 p.2
  · cases hb : acc.1.buffers p.1 with
    | none => simp [hok, hb]
    | some arr =>
      by_cases hd : d = p.1
      · subst hd; simp [hok, hb]
      · simp [hok, hb, hd]
  · simp [hok]

/-- A settlement does not touch the engine's core fields. -/
theorem settleLoad_core (ok : String → Nat → Bool) (p : String × Nat)
    (acc : AudioState × List Nat) :
    (settleLoad ok p acc).1.audioContext = acc.1.audioContext ∧
    (settleLoad ok p acc).1.masterGainNode = acc.1.masterGainNode ∧
    (settleLoad ok p acc).1.isInitialized = acc.1.isInitialized := by
  unfold settleLoad updateLoadingProgress setSlot
  by_cases hok : ok p.1 p.2
  · cases hb : acc.1.buffers p.1 <;> simp [hok, hb]
  · simp [hok]

/-- Core fields survive a whole completion run. -/
theorem fold_core (ok : String → Nat → Bool) (order : List (String × Nat))
    (acc : AudioState × List Nat) :
    ((order.foldl (fun a p => settleLoad ok p a) acc).1.audioContext
      = acc.1.audioContext) ∧
    ((order.foldl (fun a p => settleLoad ok p a) acc).1.masterGainNode
      = acc.1.masterGainNode) ∧
    ((order.foldl (fun a p => settleLoad ok p a) acc).1.isInitialized
      = acc.1.isInitialized) := by
  induction order generalizing acc with
  | nil => exact ⟨rfl, rfl, rfl⟩
  | cons p t ih =>
    obtain ⟨e1, e2, e3⟩ := settleLoad_core ok p acc
    obtain ⟨g1, g2, g3⟩ := ih (settleLoad ok p acc)
    rw [List.foldl_cons]
    exact ⟨g1.trans e1, g2.trans e2, g3.trans e3⟩

/-- A drum's buffer array survives a whole completion run. -/
theorem fold_buffers_isSome (ok : String → Nat → Bool)
    (order : List (String × Nat)) (acc : AudioState × List Nat) (d : String) :
    (((order.foldl (fun a p => settleLoad ok p a) acc).1.buffers d).isSome)
      = ((acc.1.buffers d).isSome) := by
  induction order generalizing acc with
  | nil => rfl
  | cons p t ih =>
    rw [List.foldl_cons]
    exact (ih (settleLoad ok p acc)).trans (buffers_isSome_settleLoad ok p acc d)

/-- After a whole completion run, a slot holds a buffer exactly when some
settlement in the run was the successful load of that slot; otherwise it
still holds its initial content.  (Requires only that the drum's array
exists, which `preloadSounds` installs up front.) -/
theorem getSlot_fold (ok : String → Nat → Bool) (order : List (String × Nat))
    (acc : AudioState × List Nat) (d : String) (v : Nat)
    (hbuf : ((acc.1.buffers d).isSome) = true) :
    getSlot ((order.foldl (fun a p => settleLoad ok p a) acc).1) d v =
      if order.any (fun p => p.1 = d && p.2 - 1 = v && ok p.1 p.2)
      then some () else getSlot acc.1 d v := by
  induction order generalizing acc with
  | nil => simp
  | cons p t ih =>
    rw [List.foldl_cons]
    have hbuf' : (((settleLoad ok p acc).1.buffers d).isSome) = true :=
      (buffers_isSome_settleLoad ok p acc d).trans hbuf
    rw [ih (settleLoad ok p acc) hbuf', getSlot_settleLoad]
    by_cases hmatch : p.1 = d ∧ p.2 - 1 = v ∧ ok p.1 p.2 = true
    · obtain ⟨m1, m2, m3⟩ := hmatch
      have hcond : ok p.1 p.2 = true ∧ d = p.1 ∧ v = p.2 - 1 ∧
          (acc.1.buffers p.1).isSome = true :=
        ⟨m3, m1.symm, m2.symm, by rw [m1]; exact hbuf⟩
      have hfp : (decide (p.1 = d) && decide (p.2 - 1 = v) && ok p.1 p.2)
          = true := by
        rw [m3]
        simp [m1, m2]
      simp only [List.any_cons, hfp, Bool.true_or]
      rw [if_pos hcond, ite_self]
      simp
    · have hfp : (decide (p.1 = d) && decide (p.2 - 1 = v) && ok p.1 p.2)
          = false := by
        by_contra hne
        rw [Bool.not_eq_false, Bool.and_eq_true, Bool.and_eq_true] at hne
        obtain ⟨⟨a1, a2⟩, a3⟩ := hne
        exact hmatch ⟨of_decide_eq_true a1, of_decide_eq_true a2, a3⟩
      have hcond : ¬(ok p.1 p.2 = true ∧ d = p.1 ∧ v = p.2 - 1 ∧
          (acc.1.buffers p.1).isSome = true) := by
        rintro ⟨c1, c2, c3, _⟩
        exact hmatch ⟨c2.symm, c3.symm, c1⟩
      simp only [List.any_cons, hfp, Bool.false_or]
      rw [if_neg hcond]

/-- Among the 33 catalog operations, the ones targeting slot `(d, v)` are
exactly the loads of `/sounds/{d}_{v+1}.mp3`, so the slot ends up populated
exactly when that load succeeded. -/
theorem catalog_any_eq (ok : String → Nat → Bool) (d : String) (v : Nat)
    (hd : d ∈ drumTypes) (hv : v < 3) :
    catalogPairs.any (fun p => p.1 = d && p.2 - 1 = v && ok p.1 p.2)
      = ok d (v + 1) := by
  cases hok : ok d (v + 1)
  · rw [List.any_eq_false]
    rintro ⟨a, i⟩ hp hf
    simp only [catalogPairs, List.mem_flatMap] at hp
    obtain ⟨b, _, hpb⟩ := hp
    simp only [List.mem_cons, List.mem_singleton, List.not_mem_nil,
      or_false] at hpb
    simp only [Bool.and_eq_true, decide_eq_true_eq] at hf
    obtain ⟨⟨h1, h2⟩, h3⟩ := hf
    have hi : i = v + 1 := by
      rcases hpb with h | h | h <;> (injection h with ha hb; subst hb; omega)
    rw [h1, hi] at h3
    rw [hok] at h3
    exact Bool.noConfusion h3
  · rw [List.any_eq_true]
    refine ⟨(d, v + 1), ?_, ?_⟩
    · simp only [catalogPairs, List.mem_flatMap]
      refine ⟨d, hd, ?_⟩
      interval_cases v <;> simp
    · simp [hok]

/-- When the engine guards pass, `playSound` returns a handle exactly when
the requested slot holds a buffer. -/
theorem playSound_fst_isSome (s : AudioState) (d : String) (v : Nat)
    (o : Option Unit) (h1 : s.isInitialized = true) (h2 : s.audioContext = true)
    (h3 : s.masterGainNode.isSome = true) (h4 : s.isLoading = false)
    (h5 : getSlot s d v = o) :
    ((playSound s d v).1).isSome = o.isSome := by
  unfold playSound
  rw [h1, h2, h3, h4, h5]
  cases o with
  | none => rfl
  | some u => cases hs : s.ctxSuspended <;> simp [hs]

/-- A completed run of `initialize` from an uninitialized state: its result
is the completion-marked fold of the 33 settlements over the reset state. -/
theorem initService_run (ok : String → Nat → Bool)
    (order : List (String × Nat)) (s : AudioState)
    (h : s.isInitialized = false) :
    ∃ a0 F : AudioState,
      (initService ok order s).1 =
        { F with isLoading := false, loadingProgress := 100,
                 isInitialized := true } ∧
      F = (order.foldl (fun a p => settleLoad ok p a) (a0, [])).1 ∧
      a0 = { s with audioContext := true,
                    masterGainNode := some s.masterVolume,
                    isLoading := true, loadingProgress := 0,
                    loadedSounds := 0,
                    totalSounds := drumTypes.length * 3,
                    buffers := emptyBuffers } := by
  refine ⟨_, _, ?_, rfl, rfl⟩
  simp [initService, preloadSounds, h]

/-- C4: for any set of per-asset outcomes (any `k` of the 33 loads failing),
a completed initialization still ends ready with progress 100, and
afterwards `playSound` returns a non-null handle for a slot whose load
succeeded and null for a slot whose load failed. -/
theorem partialFailure_tolerated (ok : String → Nat → Bool) (d : String)
    (v : Nat) (hd : d ∈ drumTypes) (hv : v < 3) :
    isReady (initService ok catalogPairs initialAudioState).1 = true ∧
    (initService ok catalogPairs initialAudioState).1.loadingProgress = 100 ∧
    ((playSound (initService ok catalogPairs initialAudioState).1 d v).1.isSome
      = ok d (v + 1)) := by
  refine ⟨rfl, rfl, ?_⟩
  obtain ⟨a0, F, hS, hF, ha0⟩ :=
    initService_run ok catalogPairs initialAudioState rfl
  rw [hS]
  have hbuf : (((a0, ([] : List Nat)).1).buffers d).isSome = true := by
    rw [ha0]
    simp [emptyBuffers, hd]
  have h2 : F.audioContext = true := by
    rw [hF, (fold_core ok catalogPairs _).1, ha0]
  have h3 : F.masterGainNode.isSome = true := by
    rw [hF, (fold_core ok catalogPairs _).2.1, ha0]
    rfl
  have h5 : getSlot { F with isLoading := false, loadingProgress := 100,
                             isInitialized := true } d v =
      (if ok d (v + 1) = true then some () else none) := by
    show getSlot F d v = _
    rw [hF, getSlot_fold ok catalogPairs _ d v hbuf,
      catalog_any_eq ok d v hd hv]
    by_cases hok : ok d (v + 1) = true
    · simp [hok]
    · simp only [Bool.not_eq_true] at hok
      rw [hok]
      simp [getSlot, ha0, emptyBuffers, hd]
  rw [playSound_fst_isSome { F with isLoading := false, loadingProgress := 100,
                                    isInitialized := true } d v _ rfl h2 h3 rfl h5]
  cases hok : ok d (v + 1) <;> simp [hok]

/-- Witness for C4: with exactly the load of `SNARE_2.mp3` failing, the
loader still ends ready at 100%, `playSound` on the failed slot
`("SNARE", variant 1)` returns null, and on the loaded slot
`("KICK", variant 0)` returns a non-null handle. -/
theorem partialFailure_tolerated_witness :
    ("SNARE" ∈ drumTypes ∧ 1 < 3 ∧ "KICK" ∈ drumTypes ∧ 0 < 3) ∧
    isReady (initService (fun d i => !(d = "SNARE" && i = 2)) catalogPairs
      initialAudioState).1 = true ∧
    (initService (fun d i => !(d = "SNARE" && i = 2)) catalogPairs
      initialAudioState).1.loadingProgress = 100 ∧
    ((playSound (initService (fun d i => !(d = "SNARE" && i = 2)) catalogPairs
      initialAudioState).1 "SNARE" 1).1.isSome = false) ∧
    ((playSound (initService (fun d i => !(d = "SNARE" && i = 2)) catalogPairs
      initialAudioState).1 "KICK" 0).1.isSome = true) := by
  have hs := partialFailure_tolerated (fun d i => !(d = "SNARE" && i = 2))
    "SNARE" 1 (by decide) (by decide)
  have hk := partialFailure_tolerated (fun d i => !(d = "SNARE" && i = 2))
    "KICK" 0 (by decide) (by decide)
  exact ⟨⟨by decide, by decide, by decide, by decide⟩,
    hs.1, hs.2.1, hs.2.2, hk.2.2⟩

end Drumpad
